import Mathlib

/-!
Shallow embedding of the trivia API core (`backend/flaskr/__init__.py`):
the paginator, the search matcher, the create/delete endpoints and the
quiz selector, together with proofs of the specification's claims about
them.

The durable question store is modelled as the ordered list (by ascending
`id`) that `Question.query.order_by(Question.id).all()` returns; the
SQLAlchemy model class `models.Question` is not part of the repository
sources, so its record shape is taken from the specification's data
model (§3).
-/

/-- Modelled from the spec: the `Question` row of the missing `models.py` —
identity `id`, fields `question`, `answer`, `category` (a Category id) and
`difficulty` (§3 of the specification). -/
structure Question where
  id : Nat
  question : String
  answer : String
  category : Nat
  difficulty : Nat
deriving DecidableEq, Repr

/-- The dictionary shape produced by `Question.format()`. -/
structure QuestionFormat where
  id : Nat
  question : String
  answer : String
  category : Nat
  difficulty : Nat
deriving DecidableEq, Repr

/-- Modelled from the spec: `Question.format()` of the missing `models.py`
returns the question's fields as a plain dictionary. -/
def Question.format (q : Question) : QuestionFormat :=
  ⟨q.id, q.question, q.answer, q.category, q.difficulty⟩

/-- The page-size constant `QUESTIONS_PER_PAGE = 10` (line 9 of
`flaskr/__init__.py`). -/
def QUESTIONS_PER_PAGE : Nat := 10

/-- Normalisation of one Python slice endpoint for a sequence of length `n`:
a negative index counts from the end (clamped below at 0), a non-negative
index is clamped above at `n`. -/
def sliceIdx (n : Nat) (i : Int) : Nat :=
  if i < 0 then ((n : Int) + i).toNat else min i.toNat n

/-- Python's `l[a:b]`: the elements with positions in
`[sliceIdx n a, sliceIdx n b)`. -/
def pySlice {α : Type} (l : List α) (a b : Int) : List α :=
  (l.take (sliceIdx l.length b)).drop (sliceIdx l.length a)

/-- The slicing core of `paginate_questions` (lines 21–31):
`start = (page - 1) * QUESTIONS_PER_PAGE`, `end = start + QUESTIONS_PER_PAGE`,
result `l[start:end]` with Python slice semantics.  `page` is the
(possibly non-positive) integer parsed from the request's query string. -/
def paginate_list {α : Type} (page : Int) (l : List α) : List α :=
  let start : Int := (page - 1) * (QUESTIONS_PER_PAGE : Int)
  pySlice l start (start + (QUESTIONS_PER_PAGE : Int))

/-- Embeds `paginate_questions` (lines 21–31): formats every question of
the selection, then slices out the requested page. -/
def paginate_questions (page : Int) (selection : List Question) : List QuestionFormat :=
  paginate_list page (selection.map Question.format)

/-- Whether the first character list starts with the second, comparing
members with `==` position by position. -/
def hasPfx : List Char → List Char → Bool
  | _, [] => true
  | [], _ :: _ => false
  | c :: t, p :: ps => c == p && hasPfx t ps

/-- Whether the second character list occurs contiguously somewhere in the
first. -/
def hasSub (t p : List Char) : Bool :=
  match t with
  | [] => hasPfx [] p
  | c :: ts => hasPfx (c :: ts) p || hasSub ts p

/-- Modelled from the spec: the store's `filter_by_substring` semantics —
SQL `ilike '%term%'` (issued on line 211, executed by the external storage
engine): case-insensitive substring containment of `term` in `text`. -/
def containsCI (text term : String) : Bool :=
  hasSub (text.data.map Char.toLower) (term.data.map Char.toLower)

/-- The query of lines 210–211:
`Question.query.filter(Question.question.ilike('%' + search_term + '%')).all()`,
over the store held as an ordered list. -/
def search_store (store : List Question) (search_term : String) : List Question :=
  store.filter (fun q => containsCI q.question search_term)

/-- The JSON outcome of the `/questions/search` endpoint. -/
inductive SearchResp where
  | ok (questions : List QuestionFormat) (total_questions : Nat)
  | err (code : Nat)
deriving DecidableEq, Repr

/-- Embeds `search_questions` (lines 197–224).  A missing `searchTerm` key
makes `len(search_term)` raise, and the bare `except` turns every
exception — including the `abort(404)` for an empty result set and the
`NameError` on an empty term (whose branch never binds `search_results`)
— into a 404 response. -/
def search_questions (store : List Question) (search_term : Option String) : SearchResp :=
  match search_term with
  | none => .err 404
  | some t =>
    if t.length ≠ 0 then
      let search_results := search_store store t
      if search_results.length = 0 then .err 404
      else .ok (search_results.map Question.format) search_results.length
    else .err 404

/-- The JSON outcome of `DELETE /questions/<id>`. -/
inductive DeleteResp where
  | ok (deleted : Nat) (questions : List QuestionFormat) (total_questions : Nat)
  | err (code : Nat)
deriving DecidableEq, Repr

/-- Embeds `delete_questions` (lines 115–141), paired with the store it
leaves behind.  `Question.query.get(question_id)` is lookup by primary
key; when it yields `None` the `abort(404)` raised inside the `try` block
is caught by the bare `except`, which re-raises as 422 — so a missing id
answers 422, not 404.  On success the question is removed and the
remaining questions (still in ascending-id order) are paginated for the
response. -/
def delete_questions (store : List Question) (page : Int) (question_id : Nat) :
    DeleteResp × List Question :=
  match store.find? (fun q => q.id == question_id) with
  | none => (.err 422, store)
  | some _ =>
    let store2 := store.eraseP (fun q => q.id == question_id)
    (.ok question_id (paginate_questions page store2) store2.length, store2)

/-- A JSON value of a request body, as far as this API inspects one. -/
inductive JVal where
  | str (s : String)
  | num (n : Nat)
  | null
deriving DecidableEq, Repr

/-- Python's `body.get(key, None)`: the value stored under `key` in the
JSON object, `none` when the key is absent. -/
def jget (body : List (String × JVal)) (key : String) : Option JVal :=
  (body.find? (fun kv => kv.1 == key)).map (fun kv => kv.2)

/-- The JSON outcome of `POST /questions`. -/
inductive AddResp where
  | created (id : Nat) (total_questions : Nat)
  | err (code : Nat)
deriving DecidableEq, Repr

/-- Modelled from the spec: `Question(...)` plus `insert()` of the missing
`models.py` — the store assigns a fresh id and persists the row when the
four fields are well-typed, and any store-level failure is surfaced to the
caller (the bare `except` of lines 184–185 answers it with 422, matching
§7: store failures ⇒ Unprocessable, no partial state). -/
def store_insert (nextId : Nat) (q a c d : Option JVal) : Option Question :=
  match q, a, c, d with
  | some (.str qs), some (.str ans), some (.num cat), some (.num dif) =>
    some ⟨nextId, qs, ans, cat, dif⟩
  | _, _, _, _ => none

/-- Embeds `add_questions` (lines 156–185), paired with the store it
leaves behind.  An empty JSON object is rejected with `abort(422)` (lines
168–169, outside the `try` block); otherwise the question is built from
the body's fields and inserted, any failure answering 422. -/
def add_questions (store : List Question) (nextId : Nat) (body : List (String × JVal)) :
    AddResp × List Question :=
  let new_question := jget body "question"
  let new_answer := jget body "answer"
  let new_category := jget body "category"
  let new_difficulty := jget body "difficulty"
  if body = [] then (.err 422, store)
  else
    match store_insert nextId new_question new_answer new_category new_difficulty with
    | some question => (.created question.id (store.length + 1), store ++ [question])
    | none => (.err 422, store)

/-- Outcome of one `/quizzez` call: the selector found an unseen question,
ran the exhaustion exit, or raised (empty pool / bad index), which the
bare `except` of lines 340–341 answers with `abort(400)`. -/
inductive QuizResult where
  | found (question : Question)
  | exhausted
  | err
deriving DecidableEq, Repr

/-- The JSON body the `/quizzez` endpoint answers with: `success`, an
optional `question` key, and the error code when a handler answered. -/
structure QuizResponse where
  success : Bool
  question : Option QuestionFormat
  error : Option Nat
deriving DecidableEq, Repr

/-- Lines 292–296: all questions when `category['id'] == 0`, else
`Question.query.filter_by(category=category['id']).all()`. -/
def candidate_pool (allQuestions : List Question) (category_id : Nat) : List Question :=
  if category_id = 0 then allQuestions
  else allQuestions.filter (fun q => q.category == category_id)

/-- Embeds `get_random_question` (lines 305–306):
`questions[randrange(0, total, 1)]`.  The random draw `d` is passed in
explicitly; `none` models the raise when the pool is empty
(`randrange(0, 0)` raises before indexing, and indexing an empty list
would raise too). -/
def get_random_question (questions : List Question) (d : Nat) : Option Question :=
  questions.get? d

/-- Embeds `check_if_shownbefore` (lines 310–317): a fold over
`previous_questions` that latches `shownbefore` to `True` on a matching
id. -/
def check_if_shownbefore (previous_questions : List Nat) (question : Question) : Bool :=
  previous_questions.foldl (fun shownbefore i => if i = question.id then true else shownbefore) false

/-- The `while check_if_shownbefore(question)` loop of lines 323–330,
entered with the question of the latest draw.  Inside the loop the code
redraws first, then — before examining the new draw — returns the
`EXHAUSTED` response if `len(previous_questions) == total`.  `draws` is
the explicit tail of the random stream; `none` means the modelled stream
ran out (the unbounded retry of the source never terminates on its own). -/
def quiz_loop (questions : List Question) (previous_questions : List Nat) (total : Nat) :
    Question → List Nat → Option QuizResult
  | question, draws =>
    if check_if_shownbefore previous_questions question then
      match draws with
      | [] => none
      | d :: rest =>
        match get_random_question questions d with
        | none => some .err
        | some question2 =>
          if previous_questions.length = total then some .exhausted
          else quiz_loop questions previous_questions total question2 rest
    else some (.found question)

/-- Embeds `play_quiz` (lines 292–341) after body validation: build the
candidate pool and `total`, take the initial draw (line 319), then run the
redraw loop.  Any raise — in particular `randrange(0, 0)` on an empty
pool — is caught by the bare `except` and answered with 400. -/
def play_quiz (allQuestions : List Question) (category_id : Nat)
    (previous_questions : List Nat) (draws : List Nat) : Option QuizResult :=
  let questions := candidate_pool allQuestions category_id
  let total := questions.length
  match draws with
  | [] => none
  | d :: rest =>
    match get_random_question questions d with
    | none => some .err
    | some question => quiz_loop questions previous_questions total question rest

/-- The JSON answer for each selector outcome (lines 327–337 and the 400
handler of lines 366–372). -/
def quiz_response : QuizResult → QuizResponse
  | .found q => ⟨true, some q.format, none⟩
  | .exhausted => ⟨true, none, none⟩
  | .err => ⟨false, none, some 400⟩

lemma sliceIdx_natCast (n a : Nat) : sliceIdx n (a : Int) = min a n := by
  unfold sliceIdx
  rw [if_neg (by omega)]
  simp

lemma take_min_length {α : Type} (l : List α) (b : Nat) :
    l.take (min b l.length) = l.take b := by
  rcases le_total b l.length with h | h
  · rw [min_eq_left h]
  · rw [min_eq_right h, List.take_length, List.take_of_length_le h]

lemma drop_min_of_le {α : Type} (X : List α) (a n : Nat) (h : X.length ≤ n) :
    X.drop (min a n) = X.drop a := by
  rcases le_total a n with h1 | h1
  · rw [min_eq_left h1]
  · rw [min_eq_right h1, List.drop_eq_nil_of_le h, List.drop_eq_nil_of_le (le_trans h h1)]

lemma pySlice_natCast {α : Type} (l : List α) (a b : Nat) :
    pySlice l (a : Int) (b : Int) = (l.take b).drop a := by
  unfold pySlice
  rw [sliceIdx_natCast, sliceIdx_natCast, take_min_length]
  exact drop_min_of_le _ _ _ (by simp)

lemma paginate_list_eq_drop_take {α : Type} (l : List α) (p : Nat) (hp : 1 ≤ p) :
    paginate_list (p : Int) l = (l.drop ((p - 1) * QUESTIONS_PER_PAGE)).take QUESTIONS_PER_PAGE := by
  have h1 : ((p : Int) - 1) * (QUESTIONS_PER_PAGE : Int) = (((p - 1) * QUESTIONS_PER_PAGE : Nat) : Int) := by
    unfold QUESTIONS_PER_PAGE
    omega
  show pySlice l (((p : Int) - 1) * (QUESTIONS_PER_PAGE : Int))
      (((p : Int) - 1) * (QUESTIONS_PER_PAGE : Int) + (QUESTIONS_PER_PAGE : Int))
    = (l.drop ((p - 1) * QUESTIONS_PER_PAGE)).take QUESTIONS_PER_PAGE
  rw [h1, ← Nat.cast_add, pySlice_natCast, List.drop_take]
  congr 1
  omega

lemma chunks_flatten {α : Type} :
    ∀ (k : Nat) (l : List α), l.length ≤ k * QUESTIONS_PER_PAGE →
      ((List.range k).map (fun i => (l.drop (i * QUESTIONS_PER_PAGE)).take QUESTIONS_PER_PAGE)).flatten = l := by
  intro k
  induction k with
  | zero =>
    intro l h
    simp only [Nat.zero_mul, Nat.le_zero, List.length_eq_zero] at h
    simp [h]
  | succ k ih =>
    intro l h
    rw [List.range_succ_eq_map, List.map_cons, List.flatten_cons, List.map_map]
    have hmap : ∀ i ∈ List.range k,
        ((fun i => (l.drop (i * QUESTIONS_PER_PAGE)).take QUESTIONS_PER_PAGE) ∘ Nat.succ) i
          = (fun i => ((l.drop QUESTIONS_PER_PAGE).drop (i * QUESTIONS_PER_PAGE)).take QUESTIONS_PER_PAGE) i := by
      intro i _
      simp only [Function.comp_apply]
      rw [List.drop_drop]
      congr 2
      have hs := Nat.succ_mul i QUESTIONS_PER_PAGE
      omega
    have hlen : (l.drop QUESTIONS_PER_PAGE).length ≤ k * QUESTIONS_PER_PAGE := by
      rw [List.length_drop]
      have hs : (k + 1) * QUESTIONS_PER_PAGE = k * QUESTIONS_PER_PAGE + QUESTIONS_PER_PAGE := by
        ring
      omega
    rw [List.map_congr_left hmap, ih (l.drop QUESTIONS_PER_PAGE) hlen]
    simp

lemma quiz_loop_eq (questions : List Question) (previous_questions : List Nat) (total : Nat)
    (question : Question) (draws : List Nat) :
    quiz_loop questions previous_questions total question draws
      = if check_if_shownbefore previous_questions question then
          match draws with
          | [] => none
          | d :: rest =>
            match get_random_question questions d with
            | none => some .err
            | some question2 =>
              if previous_questions.length = total then some .exhausted
              else quiz_loop questions previous_questions total question2 rest
        else some (.found question) := by
  rw [quiz_loop.eq_def]

lemma quiz_loop_not_shown (questions : List Question) (previous_questions : List Nat)
    (total : Nat) (question : Question) (draws : List Nat)
    (hs : check_if_shownbefore previous_questions question = false) :
    quiz_loop questions previous_questions total question draws = some (.found question) := by
  rw [quiz_loop_eq, hs]
  simp

lemma quiz_loop_shown_cons_err (questions : List Question) (previous_questions : List Nat)
    (total : Nat) (question : Question) (d : Nat) (rest : List Nat)
    (hs : check_if_shownbefore previous_questions question = true)
    (hget : get_random_question questions d = none) :
    quiz_loop questions previous_questions total question (d :: rest) = some .err := by
  rw [quiz_loop_eq, hs]
  simp [hget]

lemma quiz_loop_shown_cons_got (questions : List Question) (previous_questions : List Nat)
    (total : Nat) (question question2 : Question) (d : Nat) (rest : List Nat)
    (hs : check_if_shownbefore previous_questions question = true)
    (hget : get_random_question questions d = some question2) :
    quiz_loop questions previous_questions total question (d :: rest)
      = if previous_questions.length = total then some .exhausted
        else quiz_loop questions previous_questions total question2 rest := by
  rw [quiz_loop_eq, hs]
  simp [hget]

lemma shown_foldl (x : Nat) : ∀ (prev : List Nat) (b : Bool),
    prev.foldl (fun sb i => if i = x then true else sb) b
      = (b || prev.any (fun i => i == x)) := by
  intro prev
  induction prev with
  | nil => intro b; simp
  | cons i t ih =>
    intro b
    rw [List.foldl_cons, List.any_cons, ih]
    by_cases h : i = x
    · simp [h]
    · have hbeq : (i == x) = false := beq_eq_false_iff_ne.mpr h
      rw [hbeq]
      simp [h]

lemma check_shownbefore_iff (prev : List Nat) (q : Question) :
    check_if_shownbefore prev q = true ↔ q.id ∈ prev := by
  unfold check_if_shownbefore
  rw [shown_foldl]
  simp only [Bool.false_or, List.any_eq_true, beq_iff_eq]
  constructor
  · rintro ⟨i, hi, rfl⟩
    exact hi
  · intro h
    exact ⟨q.id, h, rfl⟩

lemma mem_candidate_pool {q : Question} {allQuestions : List Question} {category_id : Nat}
    (h : q ∈ candidate_pool allQuestions category_id) :
    q ∈ allQuestions ∧ (category_id ≠ 0 → q.category = category_id) := by
  unfold candidate_pool at h
  split at h
  next hc => exact ⟨h, fun hne => absurd hc hne⟩
  next hc =>
    rw [List.mem_filter] at h
    refine ⟨h.1, fun _ => ?_⟩
    simpa using h.2

lemma quiz_loop_found (questions : List Question) (previous_questions : List Nat) (total : Nat) :
    ∀ (draws : List Nat) (q0 q : Question), q0 ∈ questions →
      quiz_loop questions previous_questions total q0 draws = some (.found q) →
      q ∈ questions ∧ check_if_shownbefore previous_questions q = false := by
  intro draws
  induction draws with
  | nil =>
    intro q0 q h0 h
    cases hs : check_if_shownbefore previous_questions q0 with
    | false =>
      rw [quiz_loop_not_shown _ _ _ _ _ hs] at h
      simp only [Option.some.injEq, QuizResult.found.injEq] at h
      subst h
      exact ⟨h0, hs⟩
    | true =>
      rw [quiz_loop_eq, hs] at h
      simp at h
  | cons d rest ih =>
    intro q0 q h0 h
    cases hs : check_if_shownbefore previous_questions q0 with
    | false =>
      rw [quiz_loop_not_shown _ _ _ _ _ hs] at h
      simp only [Option.some.injEq, QuizResult.found.injEq] at h
      subst h
      exact ⟨h0, hs⟩
    | true =>
      cases hget : get_random_question questions d with
      | none =>
        rw [quiz_loop_shown_cons_err _ _ _ _ _ _ hs hget] at h
        simp at h
      | some q2 =>
        rw [quiz_loop_shown_cons_got _ _ _ _ _ _ _ hs hget] at h
        by_cases hlen : previous_questions.length = total
        · rw [if_pos hlen] at h
          simp at h
        · rw [if_neg hlen] at h
          exact ih q2 q (List.get?_mem hget) h

/-- C1: for a quiz call with a non-empty candidate pool whose ids strictly
contain `previous_questions`, if the selector returns a question (FOUND)
then that question's id is not among the previous ids and the question
belongs to the candidate pool — all questions when `category_id = 0`,
otherwise exactly the questions whose `category` equals `category_id`. -/
theorem play_quiz_found_unseen (allQuestions : List Question) (category_id : Nat)
    (previous_questions : List Nat) (draws : List Nat) (q : Question)
    (_hpool : candidate_pool allQuestions category_id ≠ [])
    (_hsub : ∀ i ∈ previous_questions,
      i ∈ (candidate_pool allQuestions category_id).map Question.id)
    (_hstrict : ∃ j ∈ (candidate_pool allQuestions category_id).map Question.id,
      j ∉ previous_questions)
    (hfound : play_quiz allQuestions category_id previous_questions draws
      = some (.found q)) :
    q.id ∉ previous_questions
    ∧ q ∈ candidate_pool allQuestions category_id
    ∧ q ∈ allQuestions
    ∧ (category_id ≠ 0 → q.category = category_id) := by
  cases draws with
  | nil => simp [play_quiz] at hfound
  | cons d rest =>
    cases hget : get_random_question (candidate_pool allQuestions category_id) d with
    | none =>
      have hred : play_quiz allQuestions category_id previous_questions (d :: rest)
          = some .err := by
        show (match get_random_question (candidate_pool allQuestions category_id) d with
          | none => some QuizResult.err
          | some question => quiz_loop (candidate_pool allQuestions category_id)
              previous_questions (candidate_pool allQuestions category_id).length question rest)
          = some QuizResult.err
        rw [hget]
      rw [hred] at hfound
      simp at hfound
    | some q0 =>
      have hred : play_quiz allQuestions category_id previous_questions (d :: rest)
          = quiz_loop (candidate_pool allQuestions category_id) previous_questions
              (candidate_pool allQuestions category_id).length q0 rest := by
        show (match get_random_question (candidate_pool allQuestions category_id) d with
          | none => some QuizResult.err
          | some question => quiz_loop (candidate_pool allQuestions category_id)
              previous_questions (candidate_pool allQuestions category_id).length question rest)
          = quiz_loop (candidate_pool allQuestions category_id) previous_questions
              (candidate_pool allQuestions category_id).length q0 rest
        rw [hget]
      obtain ⟨hq, hc⟩ := quiz_loop_found _ _ _ rest q0 q (List.get?_mem hget)
        (hred.symm.trans hfound)
      have hmp := mem_candidate_pool hq
      refine ⟨?_, hq, hmp.1, hmp.2⟩
      intro hin
      have hct := (check_shownbefore_iff previous_questions q).mpr hin
      rw [hc] at hct
      exact Bool.false_ne_true hct

/-- Witness for C1: pool of two questions (ids 1, 2), `previous = [1]`,
draws hitting the seen question first, then the unseen one. -/
theorem play_quiz_found_unseen_witness :
    (⟨2, "c", "d", 1, 2⟩ : Question).id ∉ [1]
    ∧ (⟨2, "c", "d", 1, 2⟩ : Question)
        ∈ candidate_pool [⟨1, "a", "b", 1, 1⟩, ⟨2, "c", "d", 1, 2⟩] 0
    ∧ (⟨2, "c", "d", 1, 2⟩ : Question) ∈ [⟨1, "a", "b", 1, 1⟩, ⟨2, "c", "d", 1, 2⟩]
    ∧ ((0 : Nat) ≠ 0 → (⟨2, "c", "d", 1, 2⟩ : Question).category = 0) :=
  play_quiz_found_unseen [⟨1, "a", "b", 1, 1⟩, ⟨2, "c", "d", 1, 2⟩] 0 [1] [0, 1]
    ⟨2, "c", "d", 1, 2⟩ (by decide) (by decide) (by decide) (by decide)

/-- C2: whenever the selector is about to redraw (the question in hand is
already in `previous_questions`) and `len(previous_questions)` equals the
pool size `total`, the loop yields `EXHAUSTED` rather than continuing to
sample, and `EXHAUSTED` is rendered as a normal success response with no
`question` key and no error.  (The source performs the count check right
after obtaining the redraw and before examining it, so the redrawn value
is discarded; the observable outcome is exactly the exhaustion exit.) -/
theorem quiz_exhausted_terminal (questions : List Question) (previous_questions : List Nat)
    (question : Question) (d : Nat) (rest : List Nat)
    (hshown : check_if_shownbefore previous_questions question = true)
    (hd : d < questions.length)
    (hlen : previous_questions.length = questions.length) :
    quiz_loop questions previous_questions questions.length question (d :: rest)
      = some .exhausted
    ∧ quiz_response .exhausted = ⟨true, none, none⟩ := by
  obtain ⟨q2, hget⟩ : ∃ q2, get_random_question questions d = some q2 :=
    ⟨_, List.get?_eq_get hd⟩
  refine ⟨?_, rfl⟩
  rw [quiz_loop_shown_cons_got _ _ _ _ _ _ _ hshown hget, if_pos hlen]

/-- Witness for C2: one-question pool whose only id is already shown
(the spec's scenario 3 shape collapsed to size one). -/
theorem quiz_exhausted_terminal_witness :
    quiz_loop [⟨1, "a", "b", 1, 1⟩] [1] 1 ⟨1, "a", "b", 1, 1⟩ [0] = some .exhausted
    ∧ quiz_response .exhausted = ⟨true, none, none⟩ :=
  quiz_exhausted_terminal [⟨1, "a", "b", 1, 1⟩] [1] ⟨1, "a", "b", 1, 1⟩ 0 []
    (by decide) (by decide) (by decide)

/-- C3: for every ordered sequence `items`, page `p ≥ 1` and page size 10,
the paginator returns exactly `items[(p-1)*10 : (p-1)*10 + 10]` clamped to
the bounds of `items`; its length is `min 10 (len items - (p-1)*10)`
(truncated subtraction renders `max 0 _`), and an out-of-range page yields
the empty sequence rather than an error. -/
theorem paginate_page_spec {α : Type} (items : List α) (p : Nat) (hp : 1 ≤ p) :
    paginate_list (p : Int) items
      = (items.drop ((p - 1) * QUESTIONS_PER_PAGE)).take QUESTIONS_PER_PAGE
    ∧ (paginate_list (p : Int) items).length
      = min QUESTIONS_PER_PAGE (items.length - (p - 1) * QUESTIONS_PER_PAGE)
    ∧ (items.length ≤ (p - 1) * QUESTIONS_PER_PAGE → paginate_list (p : Int) items = []) := by
  have he := paginate_list_eq_drop_take items p hp
  refine ⟨he, ?_, ?_⟩
  · rw [he, List.length_take, List.length_drop]
  · intro hout
    rw [he, List.drop_eq_nil_of_le hout]
    rfl

/-- Witness for C3 at `items = List.range 12`, `p = 2` (the spec's
end-to-end scenario 1: 12 items, page 2 holds exactly items 11–12). -/
theorem paginate_page_spec_witness :
    paginate_list ((2 : Nat) : Int) (List.range 12)
      = ((List.range 12).drop ((2 - 1) * QUESTIONS_PER_PAGE)).take QUESTIONS_PER_PAGE
    ∧ (paginate_list ((2 : Nat) : Int) (List.range 12)).length
      = min QUESTIONS_PER_PAGE ((List.range 12).length - (2 - 1) * QUESTIONS_PER_PAGE)
    ∧ ((List.range 12).length ≤ (2 - 1) * QUESTIONS_PER_PAGE →
        paginate_list ((2 : Nat) : Int) (List.range 12) = []) :=
  paginate_page_spec (List.range 12) 2 (by decide)

/-- C4: with page size 10, concatenating the paginator's pages
`1 .. ceil (len items / 10)` in order reconstructs `items` exactly. -/
theorem paginate_concat_reconstructs {α : Type} (items : List α) :
    ((List.range ((items.length + QUESTIONS_PER_PAGE - 1) / QUESTIONS_PER_PAGE)).map
        (fun i => paginate_list ((i + 1 : Nat) : Int) items)).flatten = items := by
  have hmap : ∀ i ∈ List.range ((items.length + QUESTIONS_PER_PAGE - 1) / QUESTIONS_PER_PAGE),
      (fun i => paginate_list ((i + 1 : Nat) : Int) items) i
        = (fun i => (items.drop (i * QUESTIONS_PER_PAGE)).take QUESTIONS_PER_PAGE) i := by
    intro i _
    have := paginate_list_eq_drop_take items (i + 1) (by omega)
    simpa using this
  rw [List.map_congr_left hmap]
  apply chunks_flatten
  have hdm := Nat.div_add_mod (items.length + QUESTIONS_PER_PAGE - 1) QUESTIONS_PER_PAGE
  have hlt : (items.length + QUESTIONS_PER_PAGE - 1) % QUESTIONS_PER_PAGE < QUESTIONS_PER_PAGE :=
    Nat.mod_lt _ (by decide)
  unfold QUESTIONS_PER_PAGE at *
  omega

/-- C5: for a non-empty search term, the search query returns exactly the
questions whose text contains the term as a case-insensitive substring,
and (as a sublist of the store sequence) preserves the store's relative
order. -/
theorem search_matches_exactly (store : List Question) (term : String) (_ht : term ≠ "") :
    (∀ q, q ∈ search_store store term ↔ q ∈ store ∧ containsCI q.question term = true)
    ∧ (search_store store term).Sublist store := by
  constructor
  · intro q
    exact List.mem_filter
  · exact List.filter_sublist store

/-- Witness for C5: the term `"Title"` against a two-question store whose
matching question says `"title"` (the spec's case-insensitivity example). -/
theorem search_matches_exactly_witness :
    (∀ q, q ∈ search_store [⟨1, "the title", "a", 1, 1⟩, ⟨2, "other", "b", 1, 1⟩] "Title"
      ↔ q ∈ [⟨1, "the title", "a", 1, 1⟩, ⟨2, "other", "b", 1, 1⟩]
        ∧ containsCI q.question "Title" = true)
    ∧ (search_store [⟨1, "the title", "a", 1, 1⟩, ⟨2, "other", "b", 1, 1⟩] "Title").Sublist
        [⟨1, "the title", "a", 1, 1⟩, ⟨2, "other", "b", 1, 1⟩] :=
  search_matches_exactly [⟨1, "the title", "a", 1, 1⟩, ⟨2, "other", "b", 1, 1⟩] "Title"
    (by decide)

/-- C6: a search with a non-empty term whose result set is empty is
surfaced as a 404 NotFound response, not as an empty successful result. -/
theorem search_empty_result_not_found (store : List Question) (term : String)
    (hterm : term.length ≠ 0) (hempty : search_store store term = []) :
    search_questions store (some term) = .err 404 := by
  show (if term.length ≠ 0 then
      if (search_store store term).length = 0 then SearchResp.err 404
      else SearchResp.ok ((search_store store term).map Question.format)
        (search_store store term).length
    else SearchResp.err 404) = SearchResp.err 404
  rw [if_pos hterm, hempty]
  rfl

/-- Witness for C6: the term `"zq"` over a one-question store that does not
contain it (the spec's scenario 2 shape: a non-matching term yields 404). -/
theorem search_empty_result_not_found_witness :
    search_questions [⟨1, "abc", "x", 1, 1⟩] (some "zq") = .err 404 :=
  search_empty_result_not_found [⟨1, "abc", "x", 1, 1⟩] "zq" (by decide) (by decide)

/-- C7: a quiz call whose candidate pool is empty raises before any
sampling (`randrange(0, 0)`), and the bare `except` answers 400 — a
caller/data error, neither `FOUND` nor `EXHAUSTED`. -/
theorem play_quiz_empty_pool_error (allQuestions : List Question) (category_id : Nat)
    (previous_questions : List Nat) (d : Nat) (rest : List Nat)
    (hempty : candidate_pool allQuestions category_id = []) :
    play_quiz allQuestions category_id previous_questions (d :: rest) = some .err
    ∧ (∀ q', play_quiz allQuestions category_id previous_questions (d :: rest)
        ≠ some (.found q'))
    ∧ play_quiz allQuestions category_id previous_questions (d :: rest) ≠ some .exhausted
    ∧ quiz_response .err = ⟨false, none, some 400⟩ := by
  have h1 : play_quiz allQuestions category_id previous_questions (d :: rest)
      = some .err := by
    show (match get_random_question (candidate_pool allQuestions category_id) d with
      | none => some QuizResult.err
      | some question => quiz_loop (candidate_pool allQuestions category_id)
          previous_questions (candidate_pool allQuestions category_id).length question rest)
      = some QuizResult.err
    rw [hempty]
    rfl
  refine ⟨h1, fun q' => by rw [h1]; simp, by rw [h1]; simp, rfl⟩

/-- Witness for C7: requesting category 5 when the store only holds a
category-1 question. -/
theorem play_quiz_empty_pool_error_witness :
    play_quiz [⟨1, "a", "b", 1, 1⟩] 5 [] [0] = some .err
    ∧ (∀ q', play_quiz [⟨1, "a", "b", 1, 1⟩] 5 [] [0] ≠ some (.found q'))
    ∧ play_quiz [⟨1, "a", "b", 1, 1⟩] 5 [] [0] ≠ some .exhausted
    ∧ quiz_response .err = ⟨false, none, some 400⟩ :=
  play_quiz_empty_pool_error [⟨1, "a", "b", 1, 1⟩] 5 [] 0 [] (by decide)

/-- C8: deleting a non-existent question id yields an Unprocessable (422)
error — within the claim's allowed `NotFound`/`Unprocessable` range — and
leaves the question collection exactly as it was. -/
theorem delete_missing_id_atomic (store : List Question) (page : Int) (question_id : Nat)
    (h : ∀ q ∈ store, q.id ≠ question_id) :
    delete_questions store page question_id = (.err 422, store) := by
  unfold delete_questions
  have hfind : store.find? (fun q => q.id == question_id) = none := by
    rw [List.find?_eq_none]
    intro q hq
    simpa using h q hq
  rw [hfind]

/-- Witness for C8: deleting id 2 from a store holding only id 1. -/
theorem delete_missing_id_atomic_witness :
    delete_questions [⟨1, "a", "b", 1, 1⟩] 1 2 = (.err 422, [⟨1, "a", "b", 1, 1⟩]) :=
  delete_missing_id_atomic [⟨1, "a", "b", 1, 1⟩] 1 2 (by decide)

/-- C9 counterexample: a create request with an empty body is answered
with 422 (Unprocessable), not with the 400 (InvalidRequest / bad request)
class the claim requires to be distinct from Unprocessable. -/
theorem add_empty_body_not_invalid_request :
    (add_questions [] 1 []).1 = .err 422 ∧ (add_questions [] 1 []).1 ≠ .err 400 := by
  decide

/-- C9 as amended: a create-question request with an empty body is
rejected with Unprocessable (422) — the same error class the endpoint
uses for store-level failures — and the store is left unchanged. -/
theorem add_empty_body_unprocessable (store : List Question) (nextId : Nat) :
    add_questions store nextId [] = (.err 422, store) := by
  rfl

/-- C10: calling the paginator with `page = 0` returns the empty sequence:
`start = -10` and `end = 0`, and a Python slice whose normalised end is 0
is empty whatever the normalised start. -/
theorem paginate_page_zero {α : Type} (items : List α) :
    paginate_list (0 : Int) items = [] := by
  unfold paginate_list pySlice sliceIdx QUESTIONS_PER_PAGE
  norm_num
